import Mathlib

/-
Verification of the ET7000_Server connection-health state machine and
dynamic channel registry (ET7000_Server.py) against its specification.

The Python class is shallowly embedded: the mutable instance state becomes
the Server structure, each method becomes a pure state transformer, the
external ET7000 driver and the tango framework become explicit parameters
(DriverOps, the rf reconnect transformer, the fails removal predicate).
Timestamps are exact numbers (the source uses time.time() floats, but only
sign and ordering enter the logic). A method that can let an exception
propagate returns an Option, with none for the propagating exception.
-/

namespace ET7000Srv

/-- Channel kinds handled by the server. In the source a kind appears as the
two-letter prefix "ai", "ao", "di" or "do" of an attribute name. -/
inductive Kind
  | ai
  | ao
  | di
  | do_
deriving DecidableEq

/-- Attribute names. In the source these are strings: a per-channel
attribute is named prefix ++ "%02d"-rendering of its index (for example
"ai00"), the per-kind aggregates are "all_ai", "all_ao", "all_di",
"all_do", and the attr_name loop variable of add_io starts out as the empty
string "". The rendering is injective and the three shapes never collide,
so names are kept structural here. -/
inductive AttrName
  | chan (kind : Kind) (idx : Nat)
  | allOf (kind : Kind)
  | empty
deriving DecidableEq

/-- Tango device states used by the server (tango.DevState). -/
inductive DevState
  | INIT
  | RUNNING
  | FAULT
  | UNKNOWN
deriving DecidableEq

/-- Tango attribute quality flags (tango.AttrQuality). -/
inductive AttrQuality
  | VALID
  | INVALID
deriving DecidableEq

/-- Tango attribute write access (tango.AttrWriteType). -/
inductive Access
  | READ
  | READ_WRITE
deriving DecidableEq

/-- Marker for the read callback wired into a dynamic attribute:
read_general for per-channel attributes, read_all for aggregates. -/
inductive ReadFn
  | general
  | all
deriving DecidableEq

/-- Marker for the write callback wired into a writable dynamic attribute
(write_general). -/
inductive WriteFn
  | general
deriving DecidableEq

/-- Numeric value of the PyTango constant tango.DevBoolean (CmdArgType). -/
def tangoDevBoolean : Nat := 1

/-- Numeric value of the PyTango constant tango.DevDouble (CmdArgType). -/
def tangoDevDouble : Nat := 5

/-- Numeric value of tango.AttrDataFormat.SCALAR. -/
def tangoSCALAR : Nat := 0

/-- Numeric value of tango.SPECTRUM, that is AttrDataFormat.SPECTRUM.
PyTango enumerations are integer valued, so comparisons may cross
enumeration families; set_error_attribute_value in the source compares a
data format against tango.DevBoolean and a data type against
tango.SPECTRUM, which the numeric model reproduces literally. -/
def tangoSPECTRUM : Nat := 1

/-- The definition of one dynamic tango attribute as built by add_io, with
the keyword arguments of tango.server.attribute. dtype and dformat carry
the numeric PyTango codes (float maps to tango.DevDouble). display_unit is
1.0 for every attribute in the source and is omitted. Engineering bounds
are exact numbers here; the claims only compare definitions for
equality. -/
structure TangoAttr where
  name : AttrName
  dtype : Nat
  dformat : Nat
  access : Access
  max_dim_x : Nat
  max_dim_y : Nat
  label : AttrName
  doc : String
  unit : String
  fmt : String
  min_value : Option Int
  max_value : Option Int
  fread : ReadFn
  fwrite : Option WriteFn
deriving DecidableEq

/-- A value produced by a channel read: a float (NaN or a number) or a
boolean (digital channels). Exact integers stand in for the finite floats;
only NaN-ness enters the control flow. -/
inductive RVal
  | nan
  | num (x : Int)
  | bool (b : Bool)
deriving DecidableEq

/-- math.isnan on a read value; booleans are numbers in Python and are not
NaN. -/
def RVal.isnan : RVal → Bool
  | .nan => true
  | _ => false

/-- Shapes of the sentinel produced by set_error_attribute_value: Python
None, False, float NaN, or a one-element list wrapping one of those. -/
inductive ErrVal
  | vNone
  | vFalse
  | vNaN
  | vList (e : ErrVal)
deriving DecidableEq

/-- Sentinel computed by set_error_attribute_value (lines 524-534). The
source compares get_data_format() against tango.DevBoolean and
get_data_type() against tango.SPECTRUM; both comparisons mix enumeration
families and are reproduced through the numeric codes. -/
def errValue (attr : TangoAttr) : ErrVal :=
  let v : ErrVal :=
    if attr.dformat = tangoDevBoolean then .vFalse
    else if attr.dformat = tangoDevDouble then .vNaN
    else .vNone
  if attr.dtype = tangoSPECTRUM then .vList v else v

/-- Static metadata of the connected ET-7000 module as exposed by the
driver object self.et: module type code (0 means unknown), channel counts,
per-channel enable masks (analog kinds only; the source consults no masks
for digital channels), units and engineering ranges. Per-index data is a
total function; the claims only evaluate it below the matching count. -/
structure ETMeta where
  type : Nat
  ai_n : Nat
  ao_n : Nat
  di_n : Nat
  do_n : Nat
  ai_masks : Nat → Bool
  ao_masks : Nat → Bool
  ai_units : Nat → String
  ao_units : Nat → String
  ai_min : Nat → Int
  ai_max : Nat → Int
  ao_min : Nat → Int
  ao_max : Nat → Int

/-- The self.attributes Python dict: insertion ordered, an update of an
existing key keeps its position. -/
abbrev AttrDict := List (AttrName × TangoAttr)

/-- Python dict assignment d[k] = v. -/
def dictInsert : AttrDict → AttrName → TangoAttr → AttrDict
  | [], k, v => [(k, v)]
  | (k', v') :: rest, k, v =>
      if k' = k then (k', v) :: rest else (k', v') :: dictInsert rest k v

/-- Python dict lookup d.get(k). -/
def dictLookup : AttrDict → AttrName → Option TangoAttr
  | [], _ => none
  | (k', v') :: rest, k => if k' = k then some v' else dictLookup rest k

/-- The keys of the dict, in insertion order. -/
def dictKeys (m : AttrDict) : List AttrName := m.map Prod.fst

/-- The mutable state of one ET7000_Server instance that the claims touch.
registered models the list of dynamic attributes currently added to the
tango device through add_attribute (external framework registration, kept
in creation order); attributes is the self.attributes dict. -/
structure Server where
  et : Option ETMeta
  ip : Option String
  attributes : AttrDict
  registered : List TangoAttr
  error_count : Nat
  error_time : Int
  reconnect_timeout : Int
  show_disabled_channels : Bool
  emulate : Bool
  io_async : Bool
  init_io : Bool
  state : DevState

/-- Per-call behaviour of the external ET7000 driver channel operations; a
read yields Python None (a failure) or a value, a write yields its boolean
result. -/
structure DriverOps where
  ai_read_channel : Nat → Option RVal
  di_read_channel : Nat → Option RVal
  do_read_channel : Nat → Option RVal
  ao_read_channel : Nat → Option RVal
  ao_write_channel : Nat → RVal → Bool
  do_write_channel : Nat → RVal → Bool

/-- Outcome of the raw driver call self.et.read_modbus(addr, n): an
exception somewhere in the try block, a Python None result, or a list of
register values (the empty list is falsy in Python, like None). -/
inductive DriverRegs
  | raises
  | retNone
  | ret (xs : List Int)
deriving DecidableEq

/-- True when the raw result is treated as a failure by the read_modbus
command: an exception, None, or a falsy (empty) list. -/
def regsFailed : DriverRegs → Bool
  | .raises => true
  | .retNone => true
  | .ret xs => xs.isEmpty

/-- The read_modbus command (lines 44-56) after n = int(data[1]) has been
parsed: a truthy result list is returned as is; every failure path returns
[float("nan")] * n, which is the empty list when n is not positive, exactly
as in Python. -/
def read_modbus (n : Int) (res : DriverRegs) : List RVal :=
  match res with
  | .raises => List.replicate n.toNat .nan
  | .retNone => List.replicate n.toNat .nan
  | .ret xs => if xs.isEmpty then List.replicate n.toNat .nan else xs.map RVal.num

/-- The disconnection test of is_connected (line 518): self.et is None or
self.et.type == 0. -/
def disconnected (s : Server) : Bool :=
  match s.et with
  | none => true
  | some et => et.type == 0

/-- is_connected (lines 517-522). The reconnect side effect
(delete_device, init_device, add_io) is abstracted as the state transformer
rf; the timing guard is the literal comparison of the source,
self.error_time - time.time() > self.reconnect_timeout. Returns the state
after the call and the boolean result; False is returned even when a
reconnect was just attempted. -/
def is_connected (s : Server) (now : Int) (rf : Server → Server) : Server × Bool :=
  if disconnected s then
    if s.error_time > 0 ∧ s.error_time - now > s.reconnect_timeout then (rf s, false)
    else (s, false)
  else (s, true)

/-- The mask local variable of _read_io and write_general: the per-channel
enable flag for analog kinds; for digital kinds the source performs no mask
lookup and the variable keeps its initial value True. -/
def maskOf (et : ETMeta) (kind : Kind) (chan : Nat) : Bool :=
  match kind with
  | .ai => et.ai_masks chan
  | .ao => et.ao_masks chan
  | .di => true
  | .do_ => true

/-- Dispatch of _read_io to the driver read of the named kind. -/
def driverReadOf (d : DriverOps) (kind : Kind) (chan : Nat) : Option RVal :=
  match kind with
  | .ai => d.ai_read_channel chan
  | .ao => d.ao_read_channel chan
  | .di => d.di_read_channel chan
  | .do_ => d.do_read_channel chan

/-- Error bookkeeping of a failed channel read or write: counted and
timestamped only when the mask is set (lines 199-203 and 258-263). -/
def healthFail (s : Server) (now : Int) (mask : Bool) : Server :=
  if mask then { s with error_count := s.error_count + 1, error_time := now } else s

/-- The _read_io helper (lines 180-204). The channel number is
int(attr_name[-2:]), which equals idx % 100 for a per-channel name; for the
other name shapes that int() call raises, modelled as none (the source
never wires read_general to such names). Returns the updated state and the
value handed back: the raw reading when it is neither None nor NaN,
otherwise NaN. -/
def _read_io (s : Server) (now : Int) (name : AttrName) (d : DriverOps) :
    Option (Server × RVal) :=
  match name with
  | .chan kind idx =>
      match s.et with
      | none => none
      | some et =>
          let chan := idx % 100
          let val := driverReadOf d kind chan
          let mask := maskOf et kind chan
          match val with
          | some v =>
              if v.isnan then some (healthFail s now mask, .nan) else some (s, v)
          | none => some (healthFail s now mask, .nan)
  | _ => none

/-- Python value returned by set_attribute_value: the accepted reading or
the error sentinel installed by set_error_attribute_value. -/
inductive PyRet
  | ok (v : RVal)
  | err (v : ErrVal)
deriving DecidableEq

/-- set_attribute_value (lines 536-544) together with
set_error_attribute_value (lines 524-534): a present, non-NaN value clears
the error bookkeeping and is surfaced Valid; anything else leaves the
health fields alone and surfaces the error sentinel with Invalid quality.
The returned AttrQuality is the quality set on the attribute by the
call. -/
def set_attribute_value (s : Server) (attr : TangoAttr) (value : Option RVal) :
    Server × PyRet × AttrQuality :=
  match value with
  | some v =>
      if v.isnan then (s, .err (errValue attr), .INVALID)
      else ({ s with error_time := 0, error_count := 0 }, .ok v, .VALID)
  | none => (s, .err (errValue attr), .INVALID)

/-- read_general (lines 214-224). Returns the state after the call, the
value handed back to tango, the quality set during the call, and whether a
driver channel read was invoked; none models a propagating exception. rf
abstracts the reconnect that is_connected may fire. -/
def read_general (s : Server) (now : Int) (attr : TangoAttr) (d : DriverOps)
    (rf : Server → Server) : Option (Server × PyRet × AttrQuality × Bool) :=
  let p := is_connected s now rf
  if p.2 then
    match _read_io p.1 now attr.name d with
    | none => none
    | some sv =>
        let r := set_attribute_value sv.1 attr (some sv.2)
        some (r.1, r.2.1, r.2.2, true)
  else
    let r := set_attribute_value p.1 attr none
    some (r.1, r.2.1, r.2.2, false)

/-- Outcome of write_general: post state, quality set during the call
(none when no quality was set at all), and whether a driver write was
invoked. -/
abbrev WriteOut := Server × Option AttrQuality × Bool

/-- The common tail of write_general (lines 253-265): a truthy driver
result clears the error bookkeeping and sets Valid; a falsy result on a
masked channel counts the error and installs the Invalid sentinel; a falsy
result on an unmasked channel does nothing at all. -/
def writePost (s : Server) (now : Int) (result : Bool) (mask : Bool) : WriteOut :=
  if result then ({ s with error_time := 0, error_count := 0 }, some .VALID, true)
  else if mask then
    ({ s with error_time := now, error_count := s.error_count + 1 }, some .INVALID, true)
  else (s, none, true)

/-- write_general (lines 226-265). value stands for
attr.get_write_value(); rf abstracts reconnect; none models a propagating
exception (name shapes whose channel-number parse raises). While
disconnected the attribute receives the error sentinel and Invalid quality
and the driver is not touched; a write to a kind other than ao or do is
rejected the same way. -/
def write_general (s : Server) (now : Int) (attr : TangoAttr) (value : RVal)
    (d : DriverOps) (rf : Server → Server) : Option WriteOut :=
  let p := is_connected s now rf
  if p.2 then
    match attr.name with
    | .chan kind idx =>
        let chan := idx % 100
        match kind with
        | .ao =>
            match p.1.et with
            | none => none
            | some et =>
                some (writePost p.1 now (d.ao_write_channel chan value) (et.ao_masks chan))
        | .do_ => some (writePost p.1 now (d.do_write_channel chan value) true)
        | _ => some (p.1, some .INVALID, false)
    | _ => none
  else
    some (p.1, some .INVALID, false)

/-- The per-channel analog-input attribute of add_io (lines 322-333). -/
def mkAi (et : ETMeta) (k : Nat) : TangoAttr :=
  { name := .chan .ai k, dtype := tangoDevDouble, dformat := tangoSCALAR,
    access := .READ, max_dim_x := 1, max_dim_y := 0,
    label := .chan .ai k, doc := "Analog input " ++ Nat.repr k,
    unit := et.ai_units k, fmt := "%f",
    min_value := some (et.ai_min k), max_value := some (et.ai_max k),
    fread := .general, fwrite := none }

/-- The per-channel analog-output attribute of add_io (lines 368-380). -/
def mkAo (et : ETMeta) (k : Nat) : TangoAttr :=
  { name := .chan .ao k, dtype := tangoDevDouble, dformat := tangoSCALAR,
    access := .READ_WRITE, max_dim_x := 1, max_dim_y := 0,
    label := .chan .ao k, doc := "Analog output " ++ Nat.repr k,
    unit := et.ao_units k, fmt := "%f",
    min_value := some (et.ao_min k), max_value := some (et.ao_max k),
    fread := .general, fwrite := some .general }

/-- The per-channel digital-input attribute of add_io (lines 413-422). -/
def mkDi (_et : ETMeta) (k : Nat) : TangoAttr :=
  { name := .chan .di k, dtype := tangoDevBoolean, dformat := tangoSCALAR,
    access := .READ, max_dim_x := 1, max_dim_y := 0,
    label := .chan .di k, doc := "Digital input " ++ Nat.repr k,
    unit := "", fmt := "",
    min_value := none, max_value := none,
    fread := .general, fwrite := none }

/-- The per-channel digital-output attribute of add_io (lines 453-463). -/
def mkDo (_et : ETMeta) (k : Nat) : TangoAttr :=
  { name := .chan .do_ k, dtype := tangoDevBoolean, dformat := tangoSCALAR,
    access := .READ_WRITE, max_dim_x := 1, max_dim_y := 0,
    label := .chan .do_ k, doc := "Digital output " ++ Nat.repr k,
    unit := "", fmt := "",
    min_value := none, max_value := none,
    fread := .general, fwrite := some .general }

/-- The all_ai aggregate attribute (lines 345-354); its label is whatever
attr_name holds after the channel loop, passed in as nm. -/
def aggAi (et : ETMeta) (nm : AttrName) : TangoAttr :=
  { name := .allOf .ai, dtype := tangoDevDouble, dformat := tangoSPECTRUM,
    access := .READ, max_dim_x := et.ai_n, max_dim_y := 0,
    label := nm, doc := "All analog inputs", unit := "", fmt := "%f",
    min_value := none, max_value := none, fread := .all, fwrite := none }

/-- The all_ao aggregate attribute (lines 391-400). -/
def aggAo (et : ETMeta) (nm : AttrName) : TangoAttr :=
  { name := .allOf .ao, dtype := tangoDevDouble, dformat := tangoSPECTRUM,
    access := .READ, max_dim_x := et.ao_n, max_dim_y := 0,
    label := nm, doc := "All analog outputs. ONLY FOR READ", unit := "", fmt := "%f",
    min_value := none, max_value := none, fread := .all, fwrite := none }

/-- The all_di aggregate attribute (lines 431-440). -/
def aggDi (et : ETMeta) (nm : AttrName) : TangoAttr :=
  { name := .allOf .di, dtype := tangoDevBoolean, dformat := tangoSPECTRUM,
    access := .READ, max_dim_x := et.di_n, max_dim_y := 0,
    label := nm, doc := "All digital inputs. ONLY FOR READ", unit := "", fmt := "%s",
    min_value := none, max_value := none, fread := .all, fwrite := none }

/-- The all_do aggregate attribute (lines 472-481). -/
def aggDo (et : ETMeta) (nm : AttrName) : TangoAttr :=
  { name := .allOf .do_, dtype := tangoDevBoolean, dformat := tangoSPECTRUM,
    access := .READ, max_dim_x := et.do_n, max_dim_y := 0,
    label := nm, doc := "All digital outputs. ONLY FOR READ", unit := "", fmt := "%s",
    min_value := none, max_value := none, fread := .all, fwrite := none }

/-- Accumulator threaded through the add_io channel loops: the
self.attributes dict, the device-registered attribute list, and the
attr_name loop variable. -/
structure BuildAcc where
  attrs : AttrDict
  reg : List TangoAttr
  name : AttrName

/-- One kind channel loop of add_io: for every index attr_name is
(re)assigned; when the guard holds (mask or show_disabled_channels for the
analog kinds, unconditionally for the digital kinds) the attribute is
created, added to the device and stored in self.attributes, and the
per-kind counter is bumped. External attribute creation and registration
are modelled as total; the claims do not exercise per-channel creation
failures. -/
def chanLoop (kind : Kind) (mk : Nat → TangoAttr) (pred : Nat → Bool) :
    List Nat → BuildAcc → Nat → BuildAcc × Nat
  | [], acc, c => (acc, c)
  | k :: rest, acc, c =>
      if pred k then
        chanLoop kind mk pred rest
          { attrs := dictInsert acc.attrs (.chan kind k) (mk k),
            reg := acc.reg ++ [mk k], name := .chan kind k } (c + 1)
      else
        chanLoop kind mk pred rest { acc with name := .chan kind k } c

/-- One kind block of add_io (for example lines 317-360 for ai): when the
reported count is positive, run the channel loop over range count, then
create the aggregate, add it to the device, and store it in
self.attributes under the current attr_name — the line 357 pattern, not
under its own name. -/
def kindBlock (kind : Kind) (n : Nat) (pred : Nat → Bool) (mk : Nat → TangoAttr)
    (agg : AttrName → TangoAttr) (acc : BuildAcc) : BuildAcc × Nat :=
  if 0 < n then
    let r := chanLoop kind mk pred (List.range n) acc 0
    ({ attrs := dictInsert r.1.attrs r.1.name (agg r.1.name),
       reg := r.1.reg ++ [agg r.1.name], name := r.1.name }, r.2)
  else (acc, 0)

/-- add_io (lines 296-499). When the device handle is absent the attribute
access self.et.type raises into the outer except clause; an unknown device
type takes the explicit error path; both leave the registry untouched,
count an error and fault the device. Otherwise the four kind blocks run
and the method returns the number of initialized channels, with the error
bookkeeping cleared and the state RUNNING. -/
def add_io (s : Server) (now : Int) : Server × Option Nat :=
  match s.et with
  | none =>
      ({ s with error_time := now, error_count := s.error_count + 1,
                state := .FAULT }, none)
  | some et =>
      if et.type = 0 then
        ({ s with error_time := now, error_count := s.error_count + 1,
                  state := .FAULT }, none)
      else
        let sh := s.show_disabled_channels
        let acc0 : BuildAcc := { attrs := s.attributes, reg := s.registered, name := .empty }
        let r1 := kindBlock .ai et.ai_n (fun k => et.ai_masks k || sh) (mkAi et) (aggAi et) acc0
        let r2 := kindBlock .ao et.ao_n (fun k => et.ao_masks k || sh) (mkAo et) (aggAo et) r1.1
        let r3 := kindBlock .di et.di_n (fun _ => true) (mkDi et) (aggDi et) r2.1
        let r4 := kindBlock .do_ et.do_n (fun _ => true) (mkDo et) (aggDo et) r3.1
        ({ s with attributes := r4.1.attrs, registered := r4.1.reg,
                  error_time := 0, error_count := 0,
                  state := .RUNNING, init_io := false },
         some (r1.2 + r2.2 + r3.2 + r4.2))

/-- The removal loop of remove_io: remove_attribute for each key of
self.attributes in dict order. The try block of the source wraps the whole
loop, so an individual failure (abstracted by the fails predicate) raises
out of the loop. Returns the device attribute list after the removals that
happened and whether the loop completed. -/
def removeLoop (keys : List AttrName) (fails : AttrName → Bool)
    (reg : List TangoAttr) : List TangoAttr × Bool :=
  match keys with
  | [] => (reg, true)
  | k :: rest =>
      if fails k then (reg, false)
      else removeLoop rest fails (reg.filter (fun a => a.name != k))

/-- remove_io (lines 501-515): when the loop completes, the dict is
cleared, the state set UNKNOWN and init_io raised; when an individual
removal raises, the except clause only logs, leaving the dict and the
state as they are. -/
def remove_io (s : Server) (fails : AttrName → Bool) : Server :=
  let r := removeLoop (dictKeys s.attributes) fails s.registered
  if r.2 then
    { s with registered := r.1, attributes := [], state := .UNKNOWN, init_io := true }
  else
    { s with registered := r.1 }

/-- Another managed instance in ET7000_Server.device_list, as inspected by
the IP collision scan of set_config (lines 113-120). -/
structure DevEntry where
  emulate : Bool
  ip : Option String
deriving DecidableEq

/-- Configuration values read by set_config. -/
structure ServerConfig where
  emulate : Bool
  reconnect_timeout : Int
  show_disabled_channels : Bool
  io_async : Bool
  ip : String
deriving DecidableEq

/-- set_config (lines 97-121) up to and including the IP collision scan;
the device creation that follows on the success path is an external driver
open and is cut off here. Returns the state after this phase and whether
set_config goes on to contact the device. An entry of the device list
collides when that entry is itself not emulating and holds the same
address; the emulate flag of the configuring instance is not consulted by
the scan. -/
def set_config (s : Server) (cfg : ServerConfig) (now : Int)
    (device_list : List DevEntry) : Server × Bool :=
  let s1 : Server :=
    { s with init_io := true, attributes := [], et := none, ip := none,
             error_count := 0, error_time := 0,
             emulate := cfg.emulate,
             reconnect_timeout := cfg.reconnect_timeout,
             show_disabled_channels := cfg.show_disabled_channels,
             io_async := cfg.io_async,
             state := .INIT }
  if device_list.any (fun d => !d.emulate && d.ip == some cfg.ip) then
    ({ s1 with state := .FAULT, error_count := s1.error_count + 1, error_time := now },
     false)
  else
    ({ s1 with ip := some cfg.ip }, true)

/-- Channel count of a kind as reported by the device metadata. -/
def countOf (et : ETMeta) : Kind → Nat
  | .ai => et.ai_n
  | .ao => et.ao_n
  | .di => et.di_n
  | .do_ => et.do_n

/-- Whether a raw channel read outcome is a failure for _read_io: Python
None or a NaN value. -/
def failedRead : Option RVal → Bool
  | none => true
  | some v => v.isnan

/-- A server right after set_config and device creation succeeded and
before any build: empty registry, clean health fields, default
configuration. Starting state of the build claims. -/
def freshServer (et : Option ETMeta) (sh : Bool) : Server :=
  { et := et, ip := some "192.168.1.122", attributes := [], registered := [],
    error_count := 0, error_time := 0, reconnect_timeout := 10000,
    show_disabled_channels := sh, emulate := false, io_async := false,
    init_io := true, state := .INIT }

/-- Sample module metadata: an ET-7017-like device with two analog inputs,
both enabled. -/
def etA : ETMeta :=
  { type := 7017, ai_n := 2, ao_n := 0, di_n := 0, do_n := 0,
    ai_masks := fun _ => true, ao_masks := fun _ => true,
    ai_units := fun _ => "V", ao_units := fun _ => "V",
    ai_min := fun _ => 0, ai_max := fun _ => 10,
    ao_min := fun _ => 0, ao_max := fun _ => 10 }

/-- Sample module metadata: one analog output whose enable mask is off. -/
def etB : ETMeta :=
  { type := 7024, ai_n := 0, ao_n := 1, di_n := 0, do_n := 0,
    ai_masks := fun _ => true, ao_masks := fun _ => false,
    ai_units := fun _ => "V", ao_units := fun _ => "V",
    ai_min := fun _ => 0, ai_max := fun _ => 10,
    ao_min := fun _ => 0, ao_max := fun _ => 10 }

/-- Sample module metadata with one channel of every kind, the analog ones
mask-disabled. -/
def etC : ETMeta :=
  { type := 7026, ai_n := 1, ao_n := 1, di_n := 2, do_n := 2,
    ai_masks := fun _ => false, ao_masks := fun _ => false,
    ai_units := fun _ => "V", ao_units := fun _ => "mA",
    ai_min := fun _ => 0, ai_max := fun _ => 10,
    ao_min := fun _ => 0, ao_max := fun _ => 20 }

/-- The server of etA after a successful build at time 0. -/
def sBuiltA : Server := (add_io (freshServer (some etA) false) 0).1

/-- A disconnected server (device handle absent) with a stale positive
error_time, as left behind by a failed init. -/
def sDisc : Server := { freshServer none false with error_time := 5 }

/-- A connected server for the etB device. -/
def sConnB : Server := { freshServer (some etB) false with state := .RUNNING }

/-- A driver whose channel operations all fail. -/
def dFail : DriverOps :=
  { ai_read_channel := fun _ => none, di_read_channel := fun _ => none,
    do_read_channel := fun _ => none, ao_read_channel := fun _ => none,
    ao_write_channel := fun _ _ => false, do_write_channel := fun _ _ => false }

/-- A driver whose channel operations all succeed. -/
def dGood : DriverOps :=
  { ai_read_channel := fun _ => some (.num 3), di_read_channel := fun _ => some (.bool true),
    do_read_channel := fun _ => some (.bool false), ao_read_channel := fun _ => some (.num 4),
    ao_write_channel := fun _ _ => true, do_write_channel := fun _ _ => true }

/-- The dynamic attribute of the first analog output of etB. -/
def attrAo0 : TangoAttr := mkAo etB 0

/-- A device list holding one non-emulating instance at the default
address. -/
def dlA : List DevEntry := [{ emulate := false, ip := some "192.168.1.122" }]

/-- A configuration that asks for emulation at the same address that the
dlA entry occupies. -/
def cfgEmu : ServerConfig :=
  { emulate := true, reconnect_timeout := 10000, show_disabled_channels := false,
    io_async := false, ip := "192.168.1.122" }

/-- Claim C1 (code evidence): with the device handle absent, error_time = 5
and reconnect_timeout = 10000, a call of is_connected at time 20000 — so
the elapsed time since the error, 19995, exceeds the reconnect timeout —
attempts no reconnect at all (the state comes back untouched although the
supplied reconnect transformer visibly changes it) and returns False: the
source compares error_time - now, not now - error_time, against the
timeout, and a past timestamp can never satisfy that guard. -/
theorem claim1_code_no_reconnect :
    is_connected sDisc 20000 (fun x => { x with error_count := x.error_count + 99 })
      = (sDisc, false) ∧
    20000 - sDisc.error_time > sDisc.reconnect_timeout ∧
    disconnected sDisc = true ∧ sDisc.error_time > 0 :=
  ⟨rfl, by decide, rfl, by decide⟩

/-- Claim C9: for a requested register count n (already parsed from the
command input) and a raw register read that fails — a falsy result or an
exception anywhere in the try block — read_modbus returns a sequence of
exactly n NaN values. -/
theorem claim9_read_modbus_shape (n : Int) (res : DriverRegs)
    (hn : 0 ≤ n) (hf : regsFailed res = true) :
    ((read_modbus n res).length : Int) = n ∧
    ∀ v ∈ read_modbus n res, v = RVal.nan := by
  have hrep : ((List.replicate n.toNat RVal.nan).length : Int) = n := by
    simp [Int.toNat_of_nonneg hn]
  cases res with
  | raises =>
      exact ⟨hrep, fun v hv => List.eq_of_mem_replicate hv⟩
  | retNone =>
      exact ⟨hrep, fun v hv => List.eq_of_mem_replicate hv⟩
  | ret xs =>
      have hx : xs.isEmpty = true := by simpa [regsFailed] using hf
      refine ⟨?_, ?_⟩
      · simpa [read_modbus, hx] using hrep
      · intro v hv
        simp only [read_modbus, hx, if_true] at hv
        exact List.eq_of_mem_replicate hv

/-- Witness for claim C9: a failed read of three registers yields three
NaN entries. -/
theorem claim9_witness :
    ((read_modbus 3 DriverRegs.raises).length : Int) = 3 ∧
    ∀ v ∈ read_modbus 3 DriverRegs.raises, v = RVal.nan :=
  claim9_read_modbus_shape 3 .raises (by decide) rfl

/-- Claim C2 (code evidence): building the two-channel etA device
registers ai00, ai01 and all_ai on the tango device, but remove_io — even
when every individual removal succeeds — leaves all_ai registered, because
add_io stored the aggregate in self.attributes under the last channel name
and the key all_ai is never in the dict that remove_io iterates. Moreover,
when removal of the first entry fails, the loop aborts: the second
per-channel attribute stays registered and the dict is not cleared. -/
theorem claim2_teardown_gap :
    AttrName.allOf .ai ∈ sBuiltA.registered.map TangoAttr.name ∧
    (remove_io sBuiltA (fun _ => false)).attributes = [] ∧
    AttrName.allOf .ai ∈ (remove_io sBuiltA (fun _ => false)).registered.map TangoAttr.name ∧
    AttrName.chan .ai 1 ∈
      (remove_io sBuiltA (fun nm => nm == AttrName.chan .ai 0)).registered.map TangoAttr.name ∧
    (remove_io sBuiltA (fun nm => nm == AttrName.chan .ai 0)).attributes ≠ [] := by
  decide

/-- Claim C8 (counterexample): a second instance configured for emulation
at an address held by a non-emulating managed instance is still faulted by
the collision scan, although the claim says that a pair with at least one
emulating member raises no collision fault. -/
theorem claim8_counterexample :
    cfgEmu.emulate = true ∧
    (set_config (freshServer none false) cfgEmu 100 dlA).1.state = DevState.FAULT ∧
    (set_config (freshServer none false) cfgEmu 100 dlA).2 = false := by
  refine ⟨rfl, ?_, ?_⟩ <;> decide

/-- Claim C8 (amended): the collision scan keys only on the already
managed entries — a fault is raised, without contacting the device, exactly
when some managed entry is itself not emulating and holds the configured
address, regardless of the emulation mode of the instance being
configured; otherwise set_config proceeds to contact the device. -/
theorem claim8_amended (s : Server) (cfg : ServerConfig) (now : Int)
    (devs : List DevEntry) :
    ((∃ d ∈ devs, d.emulate = false ∧ d.ip = some cfg.ip) →
      (set_config s cfg now devs).1.state = DevState.FAULT ∧
      (set_config s cfg now devs).2 = false) ∧
    ((∀ d ∈ devs, d.emulate = true ∨ d.ip ≠ some cfg.ip) →
      (set_config s cfg now devs).1.state = DevState.INIT ∧
      (set_config s cfg now devs).2 = true) := by
  constructor
  · rintro ⟨d, hd, he, hip⟩
    have hA : devs.any (fun d => !d.emulate && d.ip == some cfg.ip) = true := by
      refine List.any_eq_true.mpr ⟨d, hd, ?_⟩
      simp [he, hip]
    simp [set_config, hA]
  · intro h
    have hA : devs.any (fun d => !d.emulate && d.ip == some cfg.ip) = false := by
      rw [List.any_eq_false]
      intro d hd
      rcases h d hd with h1 | h2
      · simp [h1]
      · simp [h2]
    simp [set_config, hA]

/-- Witness for amended claim C8: the colliding configuration of
claim8_counterexample is faulted without device contact, and the same
configuration against an empty device list proceeds. -/
theorem claim8_witness :
    ((set_config (freshServer none false) cfgEmu 100 dlA).1.state = DevState.FAULT ∧
      (set_config (freshServer none false) cfgEmu 100 dlA).2 = false) ∧
    ((set_config (freshServer none false) cfgEmu 100 []).1.state = DevState.INIT ∧
      (set_config (freshServer none false) cfgEmu 100 []).2 = true) :=
  ⟨(claim8_amended (freshServer none false) cfgEmu 100 dlA).1
      ⟨{ emulate := false, ip := some "192.168.1.122" }, by decide, by decide, by decide⟩,
   (claim8_amended (freshServer none false) cfgEmu 100 []).2 (by simp)⟩

/-- While disconnected with a stale (past) error timestamp and a
nonnegative reconnect timeout, is_connected changes nothing, fires no
reconnect and returns False: the literal guard error_time - now >
reconnect_timeout cannot hold then. -/
theorem is_connected_stale (s : Server) (now : Int) (rf : Server → Server)
    (hdis : disconnected s = true) (hpast : s.error_time ≤ now)
    (htmo : 0 ≤ s.reconnect_timeout) :
    is_connected s now rf = (s, false) := by
  have hng : ¬(s.error_time > 0 ∧ s.error_time - now > s.reconnect_timeout) := by
    rintro ⟨h1, h2⟩; omega
  simp [is_connected, hdis, hng]

/-- Claim C4: whenever the connection check fails (device handle absent or
model code zero — under the physically reachable side conditions that the
stored error timestamp is not in the future and the configured reconnect
timeout is nonnegative), read_general surfaces the error sentinel with
Invalid quality, leaves the server state untouched, and performs no driver
read, whatever the driver and the reconnect behaviour are. -/
theorem claim4_disconnected_read (s : Server) (now : Int) (attr : TangoAttr)
    (d : DriverOps) (rf : Server → Server) (hdis : disconnected s = true)
    (hpast : s.error_time ≤ now) (htmo : 0 ≤ s.reconnect_timeout) :
    read_general s now attr d rf
      = some (s, PyRet.err (errValue attr), AttrQuality.INVALID, false) := by
  simp [read_general, is_connected_stale s now rf hdis hpast htmo, set_attribute_value]

/-- Witness for claim C4 at a concrete disconnected state. -/
theorem claim4_witness :
    read_general sDisc 20000 attrAo0 dGood id
      = some (sDisc, PyRet.err (errValue attrAo0), AttrQuality.INVALID, false) :=
  claim4_disconnected_read sDisc 20000 attrAo0 dGood id rfl (by decide) (by decide)

/-- Claim C5: a failing channel read (driver returns None or NaN) bumps the
consecutive-error counter and stamps error_time exactly when the computed
mask of the channel is set: never for an analog channel whose enable mask
is off, always for a channel whose mask is set (the digital kinds perform
no mask lookup and their mask variable is always True). -/
theorem claim5_mask_gates_errors (s : Server) (now : Int) (et : ETMeta)
    (d : DriverOps) (kind : Kind) (idx : Nat) (het : s.et = some et)
    (hidx : idx < 100) (hfail : failedRead (driverReadOf d kind idx) = true) :
    ∃ s', _read_io s now (.chan kind idx) d = some (s', RVal.nan) ∧
      (maskOf et kind idx = false →
        s'.error_count = s.error_count ∧ s'.error_time = s.error_time) ∧
      (maskOf et kind idx = true →
        s'.error_count = s.error_count + 1 ∧ s'.error_time = now) := by
  have hmod : idx % 100 = idx := Nat.mod_eq_of_lt hidx
  have hmain : _read_io s now (.chan kind idx) d
      = some (healthFail s now (maskOf et kind idx), RVal.nan) := by
    unfold _read_io
    rw [het]
    simp only [hmod]
    cases hv : driverReadOf d kind idx with
    | none => simp
    | some v =>
        have hn : v.isnan = true := by simpa [failedRead, hv] using hfail
        simp [hn]
  refine ⟨healthFail s now (maskOf et kind idx), hmain, ?_, ?_⟩
  · intro hm; simp [healthFail, hm]
  · intro hm; simp [healthFail, hm]

/-- Witness for claim C5: a failed read of the mask-disabled analog output
channel 0 of etB leaves the error bookkeeping untouched. -/
theorem claim5_witness :
    ∃ s', _read_io sConnB 77 (.chan .ao 0) dFail = some (s', RVal.nan) ∧
      (maskOf etB .ao 0 = false →
        s'.error_count = sConnB.error_count ∧ s'.error_time = sConnB.error_time) ∧
      (maskOf etB .ao 0 = true →
        s'.error_count = sConnB.error_count + 1 ∧ s'.error_time = 77) :=
  claim5_mask_gates_errors sConnB 77 etB dFail .ao 0 rfl (by decide) rfl

/-- Claim C6 (counterexample): on the connected etB server, a failing
driver write to the mask-disabled analog output 0 sets no quality at all —
the attribute is not surfaced Invalid, contradicting the claim (the error
bookkeeping is indeed untouched: the state comes back identical). -/
theorem claim6_counterexample :
    write_general sConnB 500 attrAo0 (RVal.num 3) dFail (fun x => x)
      = some (sConnB, none, true) ∧
    (none : Option AttrQuality) ≠ some AttrQuality.INVALID :=
  ⟨rfl, by decide⟩

/-- Claim C6 (amended): while connected, a failed driver write to an
analog output whose enable mask is off leaves error_count, error_time and
the attribute quality all untouched (the failure is silently ignored; no
Invalid quality is set), while a successful write resets error_count to 0,
clears error_time and sets Valid quality. -/
theorem claim6_amended (s : Server) (now : Int) (et : ETMeta) (attr : TangoAttr)
    (value : RVal) (d : DriverOps) (rf : Server → Server) (idx : Nat)
    (hconn : disconnected s = false) (het : s.et = some et)
    (hname : attr.name = .chan .ao idx) (hidx : idx < 100)
    (hmask : et.ao_masks idx = false) :
    (d.ao_write_channel idx value = false →
      write_general s now attr value d rf = some (s, none, true)) ∧
    (d.ao_write_channel idx value = true →
      write_general s now attr value d rf
        = some ({ s with error_time := 0, error_count := 0 },
                some AttrQuality.VALID, true)) := by
  have hic : is_connected s now rf = (s, true) := by simp [is_connected, hconn]
  have hmod : idx % 100 = idx := Nat.mod_eq_of_lt hidx
  constructor
  · intro hw
    simp [write_general, hic, hname, hmod, het, writePost, hw, hmask]
  · intro hw
    simp [write_general, hic, hname, hmod, het, writePost, hw]

/-- Witness for amended claim C6 on the concrete etB server: both the
failing and the succeeding driver write behave as stated. -/
theorem claim6_witness :
    (dFail.ao_write_channel 0 (RVal.num 3) = false →
      write_general sConnB 500 attrAo0 (RVal.num 3) dFail (fun x => x)
        = some (sConnB, none, true)) ∧
    (dFail.ao_write_channel 0 (RVal.num 3) = true →
      write_general sConnB 500 attrAo0 (RVal.num 3) dFail (fun x => x)
        = some ({ sConnB with error_time := 0, error_count := 0 },
                some AttrQuality.VALID, true)) :=
  claim6_amended sConnB 500 etB attrAo0 (RVal.num 3) dFail (fun x => x) 0
    rfl rfl rfl (by decide) rfl

theorem dictLookup_insert_self (m : AttrDict) (k : AttrName) (v : TangoAttr) :
    dictLookup (dictInsert m k v) k = some v := by
  induction m with
  | nil => simp [dictInsert, dictLookup]
  | cons p rest ih =>
      obtain ⟨k', v'⟩ := p
      by_cases h : k' = k
      · simp [dictInsert, dictLookup, h]
      · simp [dictInsert, dictLookup, h, ih]

theorem dictLookup_insert_ne (m : AttrDict) (k q : AttrName) (v : TangoAttr)
    (h : q ≠ k) : dictLookup (dictInsert m k v) q = dictLookup m q := by
  induction m with
  | nil => simp [dictInsert, dictLookup, Ne.symm h]
  | cons p rest ih =>
      obtain ⟨k', v'⟩ := p
      by_cases h2 : k' = k
      · subst h2
        simp [dictInsert, dictLookup, Ne.symm h]
      · by_cases h3 : k' = q
        · simp [dictInsert, dictLookup, h2, h3, h]
        · simp [dictInsert, dictLookup, h2, h3, ih]

theorem mem_dictKeys_insert (m : AttrDict) (k q : AttrName) (v : TangoAttr) :
    q ∈ dictKeys (dictInsert m k v) ↔ q ∈ dictKeys m ∨ q = k := by
  induction m with
  | nil => simp [dictInsert, dictKeys]
  | cons p rest ih =>
      obtain ⟨k', v'⟩ := p
      by_cases h : k' = k
      · subst h
        simp [dictInsert, dictKeys]
        tauto
      · simp only [dictInsert, if_neg h, dictKeys, List.map_cons, List.mem_cons] at *
        rw [ih]
        tauto

theorem chanLoop_append (kind : Kind) (mk : Nat → TangoAttr) (pred : Nat → Bool)
    (xs ys : List Nat) (acc : BuildAcc) (c : Nat) :
    chanLoop kind mk pred (xs ++ ys) acc c
      = chanLoop kind mk pred ys (chanLoop kind mk pred xs acc c).1
          (chanLoop kind mk pred xs acc c).2 := by
  induction xs generalizing acc c with
  | nil => simp [chanLoop]
  | cons k rest ih =>
      cases hp : pred k
      · simp [chanLoop, hp, ih]
      · simp [chanLoop, hp, ih]

theorem chanLoop_reg (kind : Kind) (mk : Nat → TangoAttr) (pred : Nat → Bool)
    (ks : List Nat) (acc : BuildAcc) (c : Nat) :
    (chanLoop kind mk pred ks acc c).1.reg
      = acc.reg ++ (ks.filter (fun k => pred k)).map mk := by
  induction ks generalizing acc c with
  | nil => simp [chanLoop]
  | cons k rest ih =>
      cases hp : pred k
      · simp [chanLoop, hp, ih]
      · simp [chanLoop, hp, ih]

theorem chanLoop_singleton_name (kind : Kind) (mk : Nat → TangoAttr)
    (pred : Nat → Bool) (k : Nat) (acc : BuildAcc) (c : Nat) :
    (chanLoop kind mk pred [k] acc c).1.name = .chan kind k := by
  cases hp : pred k <;> simp [chanLoop, hp]

theorem chanLoop_range_name (kind : Kind) (mk : Nat → TangoAttr) (pred : Nat → Bool)
    (n : Nat) (acc : BuildAcc) (c : Nat) (hn : 0 < n) :
    (chanLoop kind mk pred (List.range n) acc c).1.name = .chan kind (n - 1) := by
  obtain ⟨m, rfl⟩ : ∃ m, n = m + 1 := ⟨n - 1, (Nat.succ_pred_eq_of_pos hn).symm⟩
  rw [List.range_succ, chanLoop_append, chanLoop_singleton_name]
  simp

theorem chanLoop_lookup_other (kind : Kind) (mk : Nat → TangoAttr) (pred : Nat → Bool)
    (ks : List Nat) (acc : BuildAcc) (c : Nat) (q : AttrName)
    (hq : ∀ j, q ≠ AttrName.chan kind j) :
    dictLookup (chanLoop kind mk pred ks acc c).1.attrs q = dictLookup acc.attrs q := by
  induction ks generalizing acc c with
  | nil => simp [chanLoop]
  | cons k rest ih =>
      cases hp : pred k
      · simp only [chanLoop, hp, Bool.false_eq_true, if_false]
        exact ih _ _
      · simp only [chanLoop, hp, if_true]
        rw [ih]
        exact dictLookup_insert_ne _ _ _ _ (hq k)

theorem chanLoop_keys_sub (kind : Kind) (mk : Nat → TangoAttr) (pred : Nat → Bool)
    (ks : List Nat) (acc : BuildAcc) (c : Nat) (q : AttrName)
    (hmem : q ∈ dictKeys (chanLoop kind mk pred ks acc c).1.attrs) :
    q ∈ dictKeys acc.attrs ∨ ∃ j, q = AttrName.chan kind j := by
  induction ks generalizing acc c with
  | nil => simpa [chanLoop] using Or.inl hmem
  | cons k rest ih =>
      cases hp : pred k
      · simp only [chanLoop, hp, Bool.false_eq_true, if_false] at hmem
        rcases ih _ _ hmem with h | h
        · exact Or.inl h
        · exact Or.inr h
      · simp only [chanLoop, hp, if_true] at hmem
        rcases ih _ _ hmem with h | h
        · rcases (mem_dictKeys_insert _ _ _ _).mp h with h2 | h2
          · exact Or.inl h2
          · exact Or.inr ⟨k, h2⟩
        · exact Or.inr h

theorem kindBlock_attrs_pos (kind : Kind) (n : Nat) (pred : Nat → Bool)
    (mk : Nat → TangoAttr) (agg : AttrName → TangoAttr) (acc : BuildAcc) (hn : 0 < n) :
    (kindBlock kind n pred mk agg acc).1.attrs
      = dictInsert (chanLoop kind mk pred (List.range n) acc 0).1.attrs
          (.chan kind (n - 1)) (agg (.chan kind (n - 1))) := by
  simp only [kindBlock, if_pos hn]
  rw [chanLoop_range_name kind mk pred n acc 0 hn]

theorem kindBlock_zero (kind : Kind) (n : Nat) (pred : Nat → Bool)
    (mk : Nat → TangoAttr) (agg : AttrName → TangoAttr) (acc : BuildAcc) (hn : ¬ 0 < n) :
    (kindBlock kind n pred mk agg acc).1 = acc := by
  simp [kindBlock, hn]

theorem kindBlock_reg_pos (kind : Kind) (n : Nat) (pred : Nat → Bool)
    (mk : Nat → TangoAttr) (agg : AttrName → TangoAttr) (acc : BuildAcc) (hn : 0 < n) :
    (kindBlock kind n pred mk agg acc).1.reg
      = acc.reg ++ ((List.range n).filter (fun k => pred k)).map mk
          ++ [agg (.chan kind (n - 1))] := by
  simp only [kindBlock, if_pos hn]
  rw [chanLoop_range_name kind mk pred n acc 0 hn, chanLoop_reg]

theorem kindBlock_reg_mem (kind : Kind) (n : Nat) (pred : Nat → Bool)
    (mk : Nat → TangoAttr) (agg : AttrName → TangoAttr) (acc : BuildAcc) (a : TangoAttr)
    (h : a ∈ (kindBlock kind n pred mk agg acc).1.reg) :
    a ∈ acc.reg ∨ (∃ j, j < n ∧ pred j = true ∧ a = mk j) ∨ (∃ nm, a = agg nm) := by
  by_cases hn : 0 < n
  · rw [kindBlock_reg_pos kind n pred mk agg acc hn] at h
    rcases List.mem_append.mp h with h1 | h2
    · rcases List.mem_append.mp h1 with h3 | h4
      · exact Or.inl h3
      · obtain ⟨j, hj, rfl⟩ := List.mem_map.mp h4
        have hjf := List.mem_filter.mp hj
        exact Or.inr (Or.inl ⟨j, List.mem_range.mp hjf.1, hjf.2, rfl⟩)
    · simp only [List.mem_singleton] at h2
      exact Or.inr (Or.inr ⟨_, h2⟩)
  · rw [kindBlock_zero kind n pred mk agg acc hn] at h
    exact Or.inl h

theorem kindBlock_reg_mono (kind : Kind) (n : Nat) (pred : Nat → Bool)
    (mk : Nat → TangoAttr) (agg : AttrName → TangoAttr) (acc : BuildAcc) (a : TangoAttr)
    (h : a ∈ acc.reg) : a ∈ (kindBlock kind n pred mk agg acc).1.reg := by
  by_cases hn : 0 < n
  · rw [kindBlock_reg_pos kind n pred mk agg acc hn]
    simp [h]
  · rw [kindBlock_zero kind n pred mk agg acc hn]
    exact h

theorem kindBlock_agg_mem (kind : Kind) (n : Nat) (pred : Nat → Bool)
    (mk : Nat → TangoAttr) (agg : AttrName → TangoAttr) (acc : BuildAcc) (hn : 0 < n) :
    agg (.chan kind (n - 1)) ∈ (kindBlock kind n pred mk agg acc).1.reg := by
  rw [kindBlock_reg_pos kind n pred mk agg acc hn]
  simp

theorem kindBlock_lookup_self (kind : Kind) (n : Nat) (pred : Nat → Bool)
    (mk : Nat → TangoAttr) (agg : AttrName → TangoAttr) (acc : BuildAcc) (hn : 0 < n) :
    dictLookup (kindBlock kind n pred mk agg acc).1.attrs (.chan kind (n - 1))
      = some (agg (.chan kind (n - 1))) := by
  rw [kindBlock_attrs_pos kind n pred mk agg acc hn, dictLookup_insert_self]

theorem kindBlock_lookup_other (kind : Kind) (n : Nat) (pred : Nat → Bool)
    (mk : Nat → TangoAttr) (agg : AttrName → TangoAttr) (acc : BuildAcc) (q : AttrName)
    (hq : ∀ j, q ≠ AttrName.chan kind j) :
    dictLookup (kindBlock kind n pred mk agg acc).1.attrs q = dictLookup acc.attrs q := by
  by_cases hn : 0 < n
  · rw [kindBlock_attrs_pos kind n pred mk agg acc hn,
      dictLookup_insert_ne _ _ _ _ (hq (n - 1))]
    exact chanLoop_lookup_other kind mk pred (List.range n) acc 0 q hq
  · rw [kindBlock_zero kind n pred mk agg acc hn]

theorem kindBlock_keys_sub (kind : Kind) (n : Nat) (pred : Nat → Bool)
    (mk : Nat → TangoAttr) (agg : AttrName → TangoAttr) (acc : BuildAcc) (q : AttrName)
    (h : q ∈ dictKeys (kindBlock kind n pred mk agg acc).1.attrs) :
    q ∈ dictKeys acc.attrs ∨ ∃ j, q = AttrName.chan kind j := by
  by_cases hn : 0 < n
  · rw [kindBlock_attrs_pos kind n pred mk agg acc hn] at h
    rcases (mem_dictKeys_insert _ _ _ _).mp h with h1 | h1
    · exact chanLoop_keys_sub kind mk pred (List.range n) acc 0 q h1
    · exact Or.inr ⟨_, h1⟩
  · rw [kindBlock_zero kind n pred mk agg acc hn] at h
    exact Or.inl h

theorem chanLoop_congr (kind : Kind) (mk : Nat → TangoAttr) (pred : Nat → Bool)
    (ks : List Nat) (acc1 acc2 : BuildAcc) (c1 c2 : Nat)
    (ha : acc1.attrs = acc2.attrs) (hnm : acc1.name = acc2.name) :
    (chanLoop kind mk pred ks acc1 c1).1.attrs = (chanLoop kind mk pred ks acc2 c2).1.attrs ∧
    (chanLoop kind mk pred ks acc1 c1).1.name = (chanLoop kind mk pred ks acc2 c2).1.name := by
  induction ks generalizing acc1 acc2 c1 c2 with
  | nil => exact ⟨ha, hnm⟩
  | cons k rest ih =>
      cases hp : pred k
      · simp only [chanLoop, hp, Bool.false_eq_true, if_false]
        exact ih _ _ _ _ ha rfl
      · simp only [chanLoop, hp, if_true]
        exact ih _ _ _ _ (by simp [ha]) rfl

theorem kindBlock_congr (kind : Kind) (n : Nat) (pred : Nat → Bool)
    (mk : Nat → TangoAttr) (agg : AttrName → TangoAttr) (acc1 acc2 : BuildAcc)
    (ha : acc1.attrs = acc2.attrs) (hnm : acc1.name = acc2.name) :
    (kindBlock kind n pred mk agg acc1).1.attrs = (kindBlock kind n pred mk agg acc2).1.attrs ∧
    (kindBlock kind n pred mk agg acc1).1.name = (kindBlock kind n pred mk agg acc2).1.name := by
  by_cases hn : 0 < n
  · have h := chanLoop_congr kind mk pred (List.range n) acc1 acc2 0 0 ha hnm
    simp only [kindBlock, if_pos hn]
    exact ⟨by rw [h.1, h.2], h.2⟩
  · simp only [kindBlock, if_neg hn]
    exact ⟨ha, hnm⟩

theorem removeLoop_noFail (ks : List AttrName) (reg : List TangoAttr) :
    (removeLoop ks (fun _ => false) reg).2 = true := by
  induction ks generalizing reg with
  | nil => rfl
  | cons k rest ih => simp [removeLoop, ih]

theorem remove_io_noFail_attrs (s : Server) :
    (remove_io s (fun _ => false)).attributes = [] := by
  simp [remove_io, removeLoop_noFail]

theorem remove_io_et (s : Server) (fails : AttrName → Bool) :
    (remove_io s fails).et = s.et := by
  cases hr : (removeLoop (dictKeys s.attributes) fails s.registered).2 <;>
    simp [remove_io, hr]

theorem remove_io_show (s : Server) (fails : AttrName → Bool) :
    (remove_io s fails).show_disabled_channels = s.show_disabled_channels := by
  cases hr : (removeLoop (dictKeys s.attributes) fails s.registered).2 <;>
    simp [remove_io, hr]

theorem add_io_et (s : Server) (now : Int) : (add_io s now).1.et = s.et := by
  cases hs : s.et with
  | none => simp [add_io, hs]
  | some et => by_cases ht : et.type = 0 <;> simp [add_io, hs, ht]

theorem add_io_show (s : Server) (now : Int) :
    (add_io s now).1.show_disabled_channels = s.show_disabled_channels := by
  cases hs : s.et with
  | none => simp [add_io, hs]
  | some et => by_cases ht : et.type = 0 <;> simp [add_io, hs, ht]

theorem add_io_success (s : Server) (now : Int) (et : ETMeta)
    (hs : s.et = some et) (ht : et.type ≠ 0) :
    (add_io s now).2.isSome = true ∧ (add_io s now).1.state = DevState.RUNNING := by
  simp [add_io, hs, ht]

theorem add_io_attrs_congr (s1 s2 : Server) (now1 now2 : Int)
    (het : s1.et = s2.et) (hsh : s1.show_disabled_channels = s2.show_disabled_channels)
    (hat : s1.attributes = s2.attributes) :
    (add_io s1 now1).1.attributes = (add_io s2 now2).1.attributes := by
  cases hs : s1.et with
  | none =>
      have hs2 : s2.et = none := by rw [← het, hs]
      simp [add_io, hs, hs2, hat]
  | some et =>
      have hs2 : s2.et = some et := by rw [← het, hs]
      by_cases ht : et.type = 0
      · simp [add_io, hs, hs2, ht, hat]
      · simp only [add_io, hs, hs2, ht, ite_false, if_neg, hsh, hat]
        have c1 := kindBlock_congr .ai et.ai_n
          (fun k => et.ai_masks k || s2.show_disabled_channels) (mkAi et) (aggAi et)
          { attrs := s2.attributes, reg := s1.registered, name := .empty }
          { attrs := s2.attributes, reg := s2.registered, name := .empty } rfl rfl
        have c2 := kindBlock_congr .ao et.ao_n
          (fun k => et.ao_masks k || s2.show_disabled_channels) (mkAo et) (aggAo et)
          _ _ c1.1 c1.2
        have c3 := kindBlock_congr .di et.di_n (fun _ => true) (mkDi et) (aggDi et)
          _ _ c2.1 c2.2
        have c4 := kindBlock_congr .do_ et.do_n (fun _ => true) (mkDo et) (aggDo et)
          _ _ c3.1 c3.2
        exact c4.1

/-- Claim C3: with the device metadata held fixed (handle present,
recognized model type), performing teardown then build twice in a row
yields the same self.attributes registry — same keys, same attribute
definitions — as a single teardown-plus-build cycle, and the second build
succeeds: it returns a channel count and leaves the device RUNNING. -/
theorem claim3_rebuild_idempotent (s : Server) (now1 now2 : Int) (et : ETMeta)
    (het : s.et = some et) (ht : et.type ≠ 0) :
    (add_io (remove_io (add_io (remove_io s (fun _ => false)) now1).1
        (fun _ => false)) now2).1.attributes
      = (add_io (remove_io s (fun _ => false)) now1).1.attributes ∧
    (add_io (remove_io (add_io (remove_io s (fun _ => false)) now1).1
        (fun _ => false)) now2).2.isSome = true ∧
    (add_io (remove_io (add_io (remove_io s (fun _ => false)) now1).1
        (fun _ => false)) now2).1.state = DevState.RUNNING := by
  have h2et : (add_io (remove_io s (fun _ => false)) now1).1.et = s.et := by
    rw [add_io_et, remove_io_et]
  have h3et : (remove_io (add_io (remove_io s (fun _ => false)) now1).1
      (fun _ => false)).et = s.et := by
    rw [remove_io_et, h2et]
  refine ⟨?_, ?_⟩
  · apply add_io_attrs_congr
    · rw [h3et, remove_io_et]
    · rw [remove_io_show, add_io_show, remove_io_show]
    · rw [remove_io_noFail_attrs, remove_io_noFail_attrs]
  · exact add_io_success _ now2 et (by rw [h3et, het]) ht

/-- Witness for claim C3 on the concrete etA device. -/
theorem claim3_witness :
    (add_io (remove_io (add_io (remove_io (freshServer (some etA) false)
        (fun _ => false)) 1).1 (fun _ => false)) 2).1.attributes
      = (add_io (remove_io (freshServer (some etA) false) (fun _ => false)) 1).1.attributes ∧
    (add_io (remove_io (add_io (remove_io (freshServer (some etA) false)
        (fun _ => false)) 1).1 (fun _ => false)) 2).2.isSome = true ∧
    (add_io (remove_io (add_io (remove_io (freshServer (some etA) false)
        (fun _ => false)) 1).1 (fun _ => false)) 2).1.state = DevState.RUNNING :=
  claim3_rebuild_idempotent (freshServer (some etA) false) 1 2 etA rfl (by decide)

theorem add_io_fresh_reg (et : ETMeta) (now : Int) (sh : Bool) (ht : et.type ≠ 0) :
    (add_io (freshServer (some et) sh) now).1.registered
      = (kindBlock .do_ et.do_n (fun _ => true) (mkDo et) (aggDo et)
          (kindBlock .di et.di_n (fun _ => true) (mkDi et) (aggDi et)
            (kindBlock .ao et.ao_n (fun k => et.ao_masks k || sh) (mkAo et) (aggAo et)
              (kindBlock .ai et.ai_n (fun k => et.ai_masks k || sh) (mkAi et) (aggAi et)
                { attrs := [], reg := [], name := .empty }).1).1).1).1.reg := by
  simp [add_io, freshServer, ht]

theorem add_io_fresh_attrs (et : ETMeta) (now : Int) (sh : Bool) (ht : et.type ≠ 0) :
    (add_io (freshServer (some et) sh) now).1.attributes
      = (kindBlock .do_ et.do_n (fun _ => true) (mkDo et) (aggDo et)
          (kindBlock .di et.di_n (fun _ => true) (mkDi et) (aggDi et)
            (kindBlock .ao et.ao_n (fun k => et.ao_masks k || sh) (mkAo et) (aggAo et)
              (kindBlock .ai et.ai_n (fun k => et.ai_masks k || sh) (mkAi et) (aggAi et)
                { attrs := [], reg := [], name := .empty }).1).1).1).1.attrs := by
  simp [add_io, freshServer, ht]

theorem add_io_fresh_reg_mem (et : ETMeta) (now : Int) (sh : Bool) (ht : et.type ≠ 0)
    (a : TangoAttr) (h : a ∈ (add_io (freshServer (some et) sh) now).1.registered) :
    (∃ j, j < et.ai_n ∧ (et.ai_masks j || sh) = true ∧ a = mkAi et j) ∨
    (∃ j, j < et.ao_n ∧ (et.ao_masks j || sh) = true ∧ a = mkAo et j) ∨
    (∃ j, j < et.di_n ∧ a = mkDi et j) ∨
    (∃ j, j < et.do_n ∧ a = mkDo et j) ∨
    (∃ nm, a = aggAi et nm) ∨ (∃ nm, a = aggAo et nm) ∨
    (∃ nm, a = aggDi et nm) ∨ (∃ nm, a = aggDo et nm) := by
  rw [add_io_fresh_reg et now sh ht] at h
  rcases kindBlock_reg_mem _ _ _ _ _ _ _ h with h | ⟨j, hj, _, rfl⟩ | ⟨nm, rfl⟩
  · rcases kindBlock_reg_mem _ _ _ _ _ _ _ h with h | ⟨j, hj, _, rfl⟩ | ⟨nm, rfl⟩
    · rcases kindBlock_reg_mem _ _ _ _ _ _ _ h with h | ⟨j, hj, hp, rfl⟩ | ⟨nm, rfl⟩
      · rcases kindBlock_reg_mem _ _ _ _ _ _ _ h with h | ⟨j, hj, hp, rfl⟩ | ⟨nm, rfl⟩
        · simp at h
        · exact Or.inl ⟨j, hj, hp, rfl⟩
        · exact Or.inr (Or.inr (Or.inr (Or.inr (Or.inl ⟨nm, rfl⟩))))
      · exact Or.inr (Or.inl ⟨j, hj, hp, rfl⟩)
      · exact Or.inr (Or.inr (Or.inr (Or.inr (Or.inr (Or.inl ⟨nm, rfl⟩)))))
    · exact Or.inr (Or.inr (Or.inl ⟨j, hj, rfl⟩))
    · exact Or.inr (Or.inr (Or.inr (Or.inr (Or.inr (Or.inr (Or.inl ⟨nm, rfl⟩))))))
  · exact Or.inr (Or.inr (Or.inr (Or.inl ⟨j, hj, rfl⟩)))
  · exact Or.inr (Or.inr (Or.inr (Or.inr (Or.inr (Or.inr (Or.inr ⟨nm, rfl⟩))))))

/-- Claim C7: for an analog kind (the only kinds whose build loop consults
an enable mask), a channel whose mask is off is, with
show_disabled_channels off, never registered as an individually
addressable attribute by a successful fresh build, while the aggregate of
its kind is registered and dimensioned to the full reported count. -/
theorem claim7_masked_not_addressable (et : ETMeta) (now : Int) (kind : Kind) (k : Nat)
    (ht : et.type ≠ 0) (hkind : kind = Kind.ai ∨ kind = Kind.ao)
    (hk : k < countOf et kind) (hm : maskOf et kind k = false) :
    (∀ a ∈ (add_io (freshServer (some et) false) now).1.registered,
        a.name ≠ AttrName.chan kind k) ∧
    (∃ a ∈ (add_io (freshServer (some et) false) now).1.registered,
        a.name = AttrName.allOf kind ∧ a.max_dim_x = countOf et kind) := by
  rcases hkind with rfl | rfl
  · constructor
    · intro a ha hne
      rcases add_io_fresh_reg_mem et now false ht a ha with
        ⟨j, hj, hp, rfl⟩ | ⟨j, hj, hp, rfl⟩ | ⟨j, hj, rfl⟩ | ⟨j, hj, rfl⟩ |
        ⟨nm, rfl⟩ | ⟨nm, rfl⟩ | ⟨nm, rfl⟩ | ⟨nm, rfl⟩
      · simp only [mkAi, AttrName.chan.injEq] at hne
        rw [hne.2] at hp
        simp [maskOf] at hm
        simp [hm] at hp
      · simp [mkAo] at hne
      · simp [mkDi] at hne
      · simp [mkDo] at hne
      · simp [aggAi] at hne
      · simp [aggAo] at hne
      · simp [aggDi] at hne
      · simp [aggDo] at hne
    · have hn : 0 < et.ai_n := Nat.lt_of_le_of_lt (Nat.zero_le k) hk
      refine ⟨aggAi et (.chan .ai (et.ai_n - 1)), ?_, rfl, rfl⟩
      rw [add_io_fresh_reg et now false ht]
      apply kindBlock_reg_mono
      apply kindBlock_reg_mono
      apply kindBlock_reg_mono
      exact kindBlock_agg_mem _ _ _ _ _ _ hn
  · constructor
    · intro a ha hne
      rcases add_io_fresh_reg_mem et now false ht a ha with
        ⟨j, hj, hp, rfl⟩ | ⟨j, hj, hp, rfl⟩ | ⟨j, hj, rfl⟩ | ⟨j, hj, rfl⟩ |
        ⟨nm, rfl⟩ | ⟨nm, rfl⟩ | ⟨nm, rfl⟩ | ⟨nm, rfl⟩
      · simp [mkAi] at hne
      · simp only [mkAo, AttrName.chan.injEq] at hne
        rw [hne.2] at hp
        simp [maskOf] at hm
        simp [hm] at hp
      · simp [mkDi] at hne
      · simp [mkDo] at hne
      · simp [aggAi] at hne
      · simp [aggAo] at hne
      · simp [aggDi] at hne
      · simp [aggDo] at hne
    · have hn : 0 < et.ao_n := Nat.lt_of_le_of_lt (Nat.zero_le k) hk
      refine ⟨aggAo et (.chan .ao (et.ao_n - 1)), ?_, rfl, rfl⟩
      rw [add_io_fresh_reg et now false ht]
      apply kindBlock_reg_mono
      apply kindBlock_reg_mono
      exact kindBlock_agg_mem _ _ _ _ _ _ hn

/-- Witness for claim C7 on the etC device, whose single analog input has
its mask off. -/
theorem claim7_witness :
    (∀ a ∈ (add_io (freshServer (some etC) false) 0).1.registered,
        a.name ≠ AttrName.chan .ai 0) ∧
    (∃ a ∈ (add_io (freshServer (some etC) false) 0).1.registered,
        a.name = AttrName.allOf .ai ∧ a.max_dim_x = countOf etC .ai) :=
  claim7_masked_not_addressable etC 0 .ai 0 (by decide) (Or.inl rfl) (by decide) rfl

/-- Claim C10: after a successful fresh build, none of the keys all_ai,
all_ao, all_di, all_do is ever present in the self.attributes mapping, and
for every kind with a positive channel count the entry stored under the
name of the last per-channel attribute generated in that kind's loop is
the kind's aggregate attribute object. -/
theorem claim10_aggregate_misfiled (et : ETMeta) (now : Int) (sh : Bool)
    (ht : et.type ≠ 0) :
    (∀ kd, AttrName.allOf kd ∉
        dictKeys (add_io (freshServer (some et) sh) now).1.attributes) ∧
    (0 < et.ai_n →
      dictLookup (add_io (freshServer (some et) sh) now).1.attributes
          (.chan .ai (et.ai_n - 1)) = some (aggAi et (.chan .ai (et.ai_n - 1)))) ∧
    (0 < et.ao_n →
      dictLookup (add_io (freshServer (some et) sh) now).1.attributes
          (.chan .ao (et.ao_n - 1)) = some (aggAo et (.chan .ao (et.ao_n - 1)))) ∧
    (0 < et.di_n →
      dictLookup (add_io (freshServer (some et) sh) now).1.attributes
          (.chan .di (et.di_n - 1)) = some (aggDi et (.chan .di (et.di_n - 1)))) ∧
    (0 < et.do_n →
      dictLookup (add_io (freshServer (some et) sh) now).1.attributes
          (.chan .do_ (et.do_n - 1)) = some (aggDo et (.chan .do_ (et.do_n - 1)))) := by
  have hA := add_io_fresh_attrs et now sh ht
  refine ⟨?_, ?_, ?_, ?_, ?_⟩
  · intro kd hmem
    rw [hA] at hmem
    rcases kindBlock_keys_sub _ _ _ _ _ _ _ hmem with h | ⟨j, hj⟩
    · rcases kindBlock_keys_sub _ _ _ _ _ _ _ h with h | ⟨j, hj⟩
      · rcases kindBlock_keys_sub _ _ _ _ _ _ _ h with h | ⟨j, hj⟩
        · rcases kindBlock_keys_sub _ _ _ _ _ _ _ h with h | ⟨j, hj⟩
          · simp [dictKeys] at h
          · simp at hj
        · simp at hj
      · simp at hj
    · simp at hj
  · intro hn
    rw [hA,
      kindBlock_lookup_other .do_ et.do_n _ (mkDo et) (aggDo et) _ _ (by simp),
      kindBlock_lookup_other .di et.di_n _ (mkDi et) (aggDi et) _ _ (by simp),
      kindBlock_lookup_other .ao et.ao_n _ (mkAo et) (aggAo et) _ _ (by simp)]
    exact kindBlock_lookup_self _ _ _ _ _ _ hn
  · intro hn
    rw [hA,
      kindBlock_lookup_other .do_ et.do_n _ (mkDo et) (aggDo et) _ _ (by simp),
      kindBlock_lookup_other .di et.di_n _ (mkDi et) (aggDi et) _ _ (by simp)]
    exact kindBlock_lookup_self _ _ _ _ _ _ hn
  · intro hn
    rw [hA,
      kindBlock_lookup_other .do_ et.do_n _ (mkDo et) (aggDo et) _ _ (by simp)]
    exact kindBlock_lookup_self _ _ _ _ _ _ hn
  · intro hn
    rw [hA]
    exact kindBlock_lookup_self _ _ _ _ _ _ hn

/-- Witness for claim C10 on the etC device, which has channels of every
kind. -/
theorem claim10_witness :
    (∀ kd, AttrName.allOf kd ∉
        dictKeys (add_io (freshServer (some etC) false) 0).1.attributes) ∧
    (0 < etC.ai_n →
      dictLookup (add_io (freshServer (some etC) false) 0).1.attributes
          (.chan .ai (etC.ai_n - 1)) = some (aggAi etC (.chan .ai (etC.ai_n - 1)))) ∧
    (0 < etC.ao_n →
      dictLookup (add_io (freshServer (some etC) false) 0).1.attributes
          (.chan .ao (etC.ao_n - 1)) = some (aggAo etC (.chan .ao (etC.ao_n - 1)))) ∧
    (0 < etC.di_n →
      dictLookup (add_io (freshServer (some etC) false) 0).1.attributes
          (.chan .di (etC.di_n - 1)) = some (aggDi etC (.chan .di (etC.di_n - 1)))) ∧
    (0 < etC.do_n →
      dictLookup (add_io (freshServer (some etC) false) 0).1.attributes
          (.chan .do_ (etC.do_n - 1)) = some (aggDo etC (.chan .do_ (etC.do_n - 1)))) :=
  claim10_aggregate_misfiled etC 0 false (by decide)

end ET7000Srv
